import Mathlib

/-
  Verification of the stm32f30x-hal timer driver (src/timer.rs).

  The driver state and the TIM peripheral registers are embedded as one
  record; each driver method becomes a pure function on that record.
  Machine arithmetic of the source (u32 with wrapping overflow in release
  builds, u16 wrapping for the psc + 1 expression, truncation casts) is
  modelled on Nat with explicit moduli.  A Rust panic (unwrap failure or
  division by zero) is modelled by the ConfigResult.panicked constructor,
  which carries the register state at the moment of the panic so that
  register writes committed before the panic stay observable.
-/

namespace Stm32Timer

/-- Modulus of 32-bit machine arithmetic. -/
def U32 : Nat := 4294967296

/-- Modulus of 16-bit machine arithmetic. -/
def U16 : Nat := 65536

/-- Largest u32 value, u32::max_value() in the source. -/
def u32Max : Nat := 4294967295

/-- Driver state plus the registers of the owned TIM peripheral.
pclk and ppre are the clock snapshot (clocks.pclk1().0 and clocks.ppre1()),
timeout is the stored target frequency, psc / arr / cnt are the prescaler,
auto-reload and counter registers, cen is CR1.CEN, uif is SR.UIF, uie is
DIER.UIE and mms is the CR2.MMS field. -/
structure TimerState where
  pclk : Nat
  ppre : Nat
  timeout : Nat
  psc : Nat
  arr : Nat
  cnt : Nat
  cen : Bool
  uif : Bool
  uie : Bool
  mms : Nat
  deriving Repr, DecidableEq

/-- Interrupt events, enum Event of the source. -/
inductive Event where
  | timeOut
  | update
  deriving Repr, DecidableEq

/-- Result of a poll through Timer::wait, nb::Result of the source: either
the operation completed or it would block.  The error type of the source
is the never type, so no other outcome exists. -/
inductive WaitResult where
  | complete
  | wouldBlock
  deriving Repr, DecidableEq

/-- Outcome of a fallible register-programming method: ok carries the final
state, panicked carries the state at the moment the Rust code panics. -/
inductive ConfigResult where
  | ok : TimerState → ConfigResult
  | panicked : TimerState → ConfigResult
  deriving Repr, DecidableEq

/-- Wrapping u32 subtraction of 1, the release-build meaning of
ticks - 1 in the source. -/
def wrapSub1 (x : Nat) : Nat := (x + (U32 - 1)) % U32

/-- Tick count of Timer::config and Timer::reconfig:
pclk1 * (if ppre1 == 1 then 1 else 2) / frequency, with the
multiplication wrapping at 2^32. -/
def totalTicks (s : TimerState) (frequency : Nat) : Nat :=
  ((s.pclk * (if s.ppre = 1 then 1 else 2)) % U32) / frequency

/-- Timer::start: clear CEN, reset CNT to zero, set CEN. -/
def start (s : TimerState) : TimerState :=
  let s1 := { s with cen := false }
  let s2 := { s1 with cnt := 0 }
  { s2 with cen := true }

/-- Timer::wait: if SR.UIF is clear return WouldBlock and leave the state
alone; otherwise clear UIF and return completion. -/
def wait (s : TimerState) : WaitResult × TimerState :=
  if s.uif = false then
    (WaitResult.wouldBlock, s)
  else
    (WaitResult.complete, { s with uif := false })

/-- Timer::listen: for TimeOut write CR2 with MMS = 0b001, for Update write
CR2 with MMS = 0b010; in both cases then write DIER with UIE set. -/
def listen (s : TimerState) (event : Event) : TimerState :=
  let s1 :=
    match event with
    | Event.timeOut => { s with mms := 1 }
    | Event.update => { s with mms := 2 }
  { s1 with uie := true }

/-- Timer::unlisten: for TimeOut clear DIER.UIE then write CR2 with
MMS = 0b000; for Update the same two writes in the mirrored order. -/
def unlisten (s : TimerState) (event : Event) : TimerState :=
  match event with
  | Event.timeOut =>
    let s1 := { s with uie := false }
    { s1 with mms := 0 }
  | Event.update =>
    let s1 := { s with mms := 0 }
    { s1 with uie := false }

/-- Timer::config.  Stores the timeout, computes
ticks = pclk1 * (ppre1 == 1 ? 1 : 2) / frequency, then
psc = u16((ticks - 1) / 65536).unwrap() which panics when the value
exceeds the u16 range, writes the PSC register, computes
arr = u16(ticks / u32(psc + 1)).unwrap() where psc + 1 wraps in u16
arithmetic (a zero divisor is a division-by-zero panic) and the unwrap
panics when arr exceeds the u16 range, and finally writes the ARR
register.  A zero frequency is a division-by-zero panic before any
register write. -/
def config (s : TimerState) (frequency : Nat) : ConfigResult :=
  let s0 := { s with timeout := frequency }
  if frequency = 0 then ConfigResult.panicked s0 else
  let ticks := totalTicks s0 frequency
  let pscV := wrapSub1 ticks / U16
  if pscV < U16 then
    let s1 := { s0 with psc := pscV }
    let divisor := (pscV + 1) % U16
    if divisor = 0 then ConfigResult.panicked s1 else
    let arrV := ticks / divisor
    if arrV < U16 then ConfigResult.ok { s1 with arr := arrV }
    else ConfigResult.panicked s1
  else ConfigResult.panicked s0

/-- Timer of TIM2, get_counter: read the CNT register. -/
def get_counter (s : TimerState) : Nat :=
  s.cnt

/-- Timer of TIM2, reconfig.  Same tick count as config but the prescaler
is (ticks - 1) / u32::max_value(); the PSC register receives the value
truncated to u16 (the as-u16 cast), psc + 1 is u32 arithmetic, and the
32-bit ARR register receives ticks / (psc + 1) in full.  A zero stored
timeout is a division-by-zero panic before any register write. -/
def reconfig (s : TimerState) : ConfigResult :=
  if s.timeout = 0 then ConfigResult.panicked s else
  let ticks := totalTicks s s.timeout
  let pscV := wrapSub1 ticks / u32Max
  let s1 := { s with psc := pscV % U16 }
  let divisor := (pscV + 1) % U32
  if divisor = 0 then ConfigResult.panicked s1 else
  ConfigResult.ok { s1 with arr := ticks / divisor }

/-- Timer::free: clear CR1.CEN and hand the peripheral back. -/
def free (s : TimerState) : TimerState :=
  { s with cen := false }

/-- Timer of TIM2, stop: clear CR1.CEN and reset CNT to zero. -/
def stop (s : TimerState) : TimerState :=
  let s1 := { s with cen := false }
  { s1 with cnt := 0 }

/-- Helper: wrapping subtraction of 1 is ordinary subtraction on the
u32 range away from zero. -/
theorem wrapSub1_eq (x : Nat) (h1 : 1 ≤ x) (h2 : x < U32) : wrapSub1 x = x - 1 := by
  unfold wrapSub1 U32 at *
  omega

/-- Helper: one step of truncating division, bounding t between
d * (t / d) and d * (t / d + 1). -/
theorem div_mul_succ_bounds (t d : Nat) (hd : 0 < d) :
    t < d * (t / d + 1) ∧ d * (t / d + 1) ≤ t + d := by
  have h1 := Nat.div_add_mod t d
  have h2 := Nat.mod_lt t hd
  have h3 : d * (t / d + 1) = d * (t / d) + d := by ring
  have h4 : 0 ≤ t % d := Nat.zero_le _
  constructor
  · linarith
  · linarith

/-- Helper: for a tick count t that is not a multiple of 65536 and at most
65535 * 65536, the prescaler (t - 1) / 65536 stays at most 65534, the
reload value t / (psc + 1) fits below 65536, and the programmed product
(psc + 1) * (arr + 1) overshoots t by at most one divisor step. -/
theorem divisor_pair_bounds (t : Nat) (h1 : ¬ (65536 ∣ t)) (h2 : t ≤ 4294901760) :
    (t - 1) / 65536 ≤ 65534 ∧
    t / ((t - 1) / 65536 + 1) < 65536 ∧
    t < ((t - 1) / 65536 + 1) * (t / ((t - 1) / 65536 + 1) + 1) ∧
    ((t - 1) / 65536 + 1) * (t / ((t - 1) / 65536 + 1) + 1) ≤
      t + ((t - 1) / 65536 + 1) := by
  have ht1 : 1 ≤ t := by
    rcases Nat.eq_zero_or_pos t with h | h
    · exact absurd (h ▸ dvd_zero 65536) h1
    · exact h
  have hple : (t - 1) / 65536 ≤ 65534 := by omega
  have hne : t < ((t - 1) / 65536 + 1) * 65536 := by
    by_contra h
    exact h1 ⟨(t - 1) / 65536 + 1, by omega⟩
  have harr : t / ((t - 1) / 65536 + 1) < 65536 := by
    rw [Nat.div_lt_iff_lt_mul (by omega : 0 < (t - 1) / 65536 + 1)]
    omega
  obtain ⟨hb1, hb2⟩ := div_mul_succ_bounds t ((t - 1) / 65536 + 1) (by omega)
  exact ⟨hple, harr, hb1, hb2⟩

/-- Claim C6: wait never blocks and never fails.  On every state it is a
total function into the two-constructor result type: a clear UIF flag
gives WouldBlock and an unchanged state, a set UIF flag gives completion
with exactly the UIF flag cleared. -/
theorem wait_spec (s : TimerState) :
    wait s =
      if s.uif then (WaitResult.complete, { s with uif := false })
      else (WaitResult.wouldBlock, s) := by
  by_cases h : s.uif <;> simp [wait, h]

/-- Claim C8: start zeroes the counter and sets the count-enable bit, a
second start gives the same final state as one start, and get_counter
right after start reads 0. -/
theorem start_spec (s : TimerState) :
    start s = { s with cnt := 0, cen := true } ∧
    (start s).cnt = 0 ∧
    (start s).cen = true ∧
    start (start s) = start s ∧
    get_counter (start s) = 0 := by
  simp [start, get_counter]

/-- Claim C9: free clears only the count-enable bit; the counter, the two
divisor registers, the interrupt-enable bit, the master-mode field, the
status flag and the stored timeout are all unchanged, and the register
state handed back is exactly the input with CEN cleared.  (That free
consumes the driver is the by-value self of the source signature.) -/
theorem free_spec (s : TimerState) :
    (free s).cen = false ∧
    (free s).cnt = s.cnt ∧
    (free s).psc = s.psc ∧
    (free s).arr = s.arr ∧
    (free s).uie = s.uie ∧
    (free s).mms = s.mms ∧
    (free s).uif = s.uif ∧
    (free s).timeout = s.timeout ∧
    free s = { s with cen := false } := by
  simp [free]

/-- Claim C1, counterexample: at pclk = 65536, ppre = 1, frequency = 1 the
hypothesis 0 < f and f at most pclk holds and total_ticks = 65536, yet the
computed reload value 65536 / (0 + 1) = 65536 does not fit the 16-bit field
and config panics after writing PSC (initial psc 3 becomes 0, arr stays 4)
instead of writing both divisor registers. -/
theorem config_arr_overflow_cex :
    ¬ (totalTicks ⟨65536, 1, 1, 3, 4, 0, false, false, false, 0⟩ 1 /
        (wrapSub1 (totalTicks ⟨65536, 1, 1, 3, 4, 0, false, false, false, 0⟩ 1) / U16 + 1)
        < U16) ∧
    config ⟨65536, 1, 0, 3, 4, 0, false, false, false, 0⟩ 1 =
      ConfigResult.panicked ⟨65536, 1, 1, 0, 4, 0, false, false, false, 0⟩ := by
  decide

/-- Claim C1, amended: for every positive frequency such that the tick count
total_ticks is not a multiple of 65536 and is at most 65535 * 65536, config
computes psc = (total_ticks - 1) / 65536 at most 65534, a reload value
arr = total_ticks / (psc + 1) below 65536, writes both values and the
timeout into the state, and (psc + 1) * (arr + 1) exceeds total_ticks by at
most one divisor step psc + 1. -/
theorem config_divisor_spec (s : TimerState) (f : Nat) (hf : 0 < f)
    (hnd : ¬ (U16 ∣ totalTicks s f)) (hub : totalTicks s f ≤ 65535 * U16) :
    wrapSub1 (totalTicks s f) / U16 ≤ 65534 ∧
    totalTicks s f / (wrapSub1 (totalTicks s f) / U16 + 1) < U16 ∧
    config s f = ConfigResult.ok
      { s with timeout := f,
               psc := wrapSub1 (totalTicks s f) / U16,
               arr := totalTicks s f / (wrapSub1 (totalTicks s f) / U16 + 1) } ∧
    totalTicks s f <
      (wrapSub1 (totalTicks s f) / U16 + 1) *
        (totalTicks s f / (wrapSub1 (totalTicks s f) / U16 + 1) + 1) ∧
    (wrapSub1 (totalTicks s f) / U16 + 1) *
        (totalTicks s f / (wrapSub1 (totalTicks s f) / U16 + 1) + 1) ≤
      totalTicks s f + (wrapSub1 (totalTicks s f) / U16 + 1) := by
  have hU : U16 = 65536 := rfl
  have hnd2 : ¬ (65536 ∣ totalTicks s f) := by rwa [hU] at hnd
  have hub2 : totalTicks s f ≤ 4294901760 := by rw [hU] at hub; omega
  have ht1 : 1 ≤ totalTicks s f := by
    rcases Nat.eq_zero_or_pos (totalTicks s f) with h | h
    · exact absurd (h ▸ dvd_zero 65536) hnd2
    · exact h
  have hw : wrapSub1 (totalTicks s f) = totalTicks s f - 1 :=
    wrapSub1_eq _ ht1 (by unfold U32; omega)
  obtain ⟨hp, ha, hl, hr⟩ := divisor_pair_bounds (totalTicks s f) hnd2 hub2
  have hcfg : config s f = ConfigResult.ok
      { s with timeout := f,
               psc := (totalTicks s f - 1) / 65536,
               arr := totalTicks s f / ((totalTicks s f - 1) / 65536 + 1) } := by
    have hfz : f ≠ 0 := by omega
    have htt : totalTicks { s with timeout := f } f = totalTicks s f := rfl
    unfold config
    rw [if_neg hfz]
    simp only [htt, hw, hU]
    rw [if_pos (by omega : (totalTicks s f - 1) / 65536 < 65536)]
    rw [Nat.mod_eq_of_lt (by omega : (totalTicks s f - 1) / 65536 + 1 < 65536)]
    rw [if_neg (by omega : ¬ ((totalTicks s f - 1) / 65536 + 1 = 0))]
    rw [if_pos ha]
  rw [hw, hU]
  exact ⟨hp, ha, hcfg, hl, hr⟩

/-- Claim C1, witness: the amended theorem applied at pclk = 8000000,
ppre = 1, frequency = 1000, where total_ticks = 8000, psc = 0 and
arr = 8000. -/
theorem config_divisor_spec_witness :
    0 < 1000 ∧
    ¬ (U16 ∣ totalTicks ⟨8000000, 1, 0, 0, 0, 0, false, false, false, 0⟩ 1000) ∧
    totalTicks ⟨8000000, 1, 0, 0, 0, 0, false, false, false, 0⟩ 1000 ≤ 65535 * U16 ∧
    config ⟨8000000, 1, 0, 0, 0, 0, false, false, false, 0⟩ 1000 =
      ConfigResult.ok
        { (⟨8000000, 1, 0, 0, 0, 0, false, false, false, 0⟩ : TimerState) with
          timeout := 1000,
          psc := wrapSub1 (totalTicks ⟨8000000, 1, 0, 0, 0, 0, false, false, false, 0⟩ 1000) / U16,
          arr := totalTicks ⟨8000000, 1, 0, 0, 0, 0, false, false, false, 0⟩ 1000 /
            (wrapSub1 (totalTicks ⟨8000000, 1, 0, 0, 0, 0, false, false, false, 0⟩ 1000) / U16 + 1) } :=
  ⟨by decide, by decide, by decide,
    (config_divisor_spec ⟨8000000, 1, 0, 0, 0, 0, false, false, false, 0⟩ 1000
      (by decide) (by decide) (by decide)).2.2.1⟩

/-- Claim C2: at pclk = 65536, ppre = 1, frequency = 1 the reload value
65536 does not fit u16, and the source does not report a ConfigOverflow
error: the unchecked unwrap panics, and it does so only after the PSC
register write has already been committed (initial psc 7 becomes 0 while
arr stays 9), so a failing configuration leaves a half-programmed divisor
pair behind. -/
theorem config_unwrap_panic_after_psc_write :
    config ⟨65536, 1, 0, 7, 9, 0, false, false, false, 0⟩ 1 =
      ConfigResult.panicked ⟨65536, 1, 1, 0, 9, 0, false, false, false, 0⟩ := by
  decide

/-- Claim C3, counterexample: in the first spec scenario (pclk = 8000000,
ppre = 1, frequency = 1000) config writes arr = 8000, not the arr = 7999
the scenario states. -/
theorem config_scenario_cex :
    config ⟨8000000, 1, 0, 0, 0, 0, false, false, false, 0⟩ 1000 =
      ConfigResult.ok ⟨8000000, 1, 1000, 0, 8000, 0, false, false, false, 0⟩ ∧
    config ⟨8000000, 1, 0, 0, 0, 0, false, false, false, 0⟩ 1000 ≠
      ConfigResult.ok ⟨8000000, 1, 1000, 0, 7999, 0, false, false, false, 0⟩ := by
  decide

/-- Claim C3, amended: the two spec scenarios with the values the code
computes.  Scenario one (pclk = 8000000, ppre = 1, frequency = 1000) gives
total_ticks = 8000, psc = 0, arr = 8000.  Scenario two (pclk = 8000000,
ppre = 2, frequency = 1) gives total_ticks = 16000000, psc = 244 (floor of
15999999 / 65536, not 243), arr = 16000000 / 245 = 65306 (not 65432). -/
theorem config_scenarios :
    totalTicks ⟨8000000, 1, 0, 0, 0, 0, false, false, false, 0⟩ 1000 = 8000 ∧
    config ⟨8000000, 1, 0, 0, 0, 0, false, false, false, 0⟩ 1000 =
      ConfigResult.ok ⟨8000000, 1, 1000, 0, 8000, 0, false, false, false, 0⟩ ∧
    totalTicks ⟨8000000, 2, 0, 0, 0, 0, false, false, false, 0⟩ 1 = 16000000 ∧
    config ⟨8000000, 2, 0, 0, 0, 0, false, false, false, 0⟩ 1 =
      ConfigResult.ok ⟨8000000, 2, 1, 244, 65306, 0, false, false, false, 0⟩ := by
  decide

/-- Claim C4, counterexample: from the same starting state, listen for
TimeOut and listen for Update do not produce the same final register
state; the master-mode fields differ (0b001 against 0b010). -/
theorem listen_same_state_cex :
    listen ⟨8000000, 1, 0, 0, 0, 0, false, false, false, 0⟩ Event.timeOut ≠
      listen ⟨8000000, 1, 0, 0, 0, 0, false, false, false, 0⟩ Event.update := by
  decide

/-- Claim C4, amended: the two listen variants perform the same two writes
in the same order (CR2 first, DIER second) but with different master-mode
values, 0b001 for TimeOut and 0b010 for Update; both set the
update-interrupt-enable bit, so the two final states agree everywhere
except in the master-mode field. -/
theorem listen_mms_values (s : TimerState) :
    (listen s Event.timeOut).mms = 1 ∧
    (listen s Event.update).mms = 2 ∧
    (listen s Event.timeOut).uie = true ∧
    (listen s Event.update).uie = true ∧
    listen s Event.update = { listen s Event.timeOut with mms := 2 } := by
  simp [listen]

/-- Claim C5, counterexample: from a starting state with the
interrupt-enable bit set and master-mode field 3, listen for TimeOut
followed by unlisten for TimeOut leaves uie = false and mms = 0, not the
values from before the listen call. -/
theorem listen_unlisten_cex :
    ((unlisten (listen ⟨0, 0, 0, 0, 0, 0, false, false, true, 3⟩ Event.timeOut)
        Event.timeOut).uie,
      (unlisten (listen ⟨0, 0, 0, 0, 0, 0, false, false, true, 3⟩ Event.timeOut)
        Event.timeOut).mms) ≠
    ((⟨0, 0, 0, 0, 0, 0, false, false, true, 3⟩ : TimerState).uie,
      (⟨0, 0, 0, 0, 0, 0, false, false, true, 3⟩ : TimerState).mms) := by
  decide

/-- Claim C5, amended: unlisten after listen always drives the
interrupt-enable bit to false and the master-mode field to 0, so the pair
returns to its pre-listen values exactly for starting states that already
had uie clear and mms = 0, such as the post-reset state. -/
theorem listen_unlisten_inverse (s : TimerState) (e : Event)
    (h1 : s.uie = false) (h2 : s.mms = 0) :
    (unlisten (listen s e) e).uie = s.uie ∧
    (unlisten (listen s e) e).mms = s.mms := by
  cases e <;> simp [listen, unlisten, h1, h2]

/-- Claim C5, witness: the amended theorem applied to the post-reset state
and the Update event. -/
theorem listen_unlisten_inverse_witness :
    (⟨0, 0, 0, 0, 0, 0, false, false, false, 0⟩ : TimerState).uie = false ∧
    (⟨0, 0, 0, 0, 0, 0, false, false, false, 0⟩ : TimerState).mms = 0 ∧
    ((unlisten (listen ⟨0, 0, 0, 0, 0, 0, false, false, false, 0⟩ Event.update)
        Event.update).uie =
      (⟨0, 0, 0, 0, 0, 0, false, false, false, 0⟩ : TimerState).uie ∧
      (unlisten (listen ⟨0, 0, 0, 0, 0, 0, false, false, false, 0⟩ Event.update)
        Event.update).mms =
      (⟨0, 0, 0, 0, 0, 0, false, false, false, 0⟩ : TimerState).mms) :=
  ⟨rfl, rfl,
    listen_unlisten_inverse ⟨0, 0, 0, 0, 0, 0, false, false, false, 0⟩ Event.update rfl rfl⟩

/-- Claim C7: whenever the tick count lies between 1 and the largest u32
value, reconfig computes prescaler (ticks - 1) / u32::max_value() = 0 and
writes psc = 0 and arr = ticks. -/
theorem reconfig_psc_zero (s : TimerState)
    (h1 : 1 ≤ totalTicks s s.timeout) (h2 : totalTicks s s.timeout ≤ u32Max) :
    reconfig s = ConfigResult.ok { s with psc := 0, arr := totalTicks s s.timeout } := by
  have ht : s.timeout ≠ 0 := by
    intro h
    rw [h] at h1
    simp [totalTicks] at h1
  have hw : wrapSub1 (totalTicks s s.timeout) = totalTicks s s.timeout - 1 :=
    wrapSub1_eq _ h1 (by unfold u32Max at h2; unfold U32; omega)
  have hp : wrapSub1 (totalTicks s s.timeout) / u32Max = 0 := by
    apply Nat.div_eq_of_lt
    rw [hw]
    unfold u32Max at *
    omega
  unfold reconfig
  rw [if_neg ht]
  simp only [hp]
  norm_num [U16, U32]

/-- Claim C7, witness: the theorem applied at pclk = 1000, ppre = 1,
stored timeout 10, where the tick count is 100. -/
theorem reconfig_psc_zero_witness :
    1 ≤ totalTicks ⟨1000, 1, 10, 3, 4, 0, false, false, false, 0⟩ 10 ∧
    totalTicks ⟨1000, 1, 10, 3, 4, 0, false, false, false, 0⟩ 10 ≤ u32Max ∧
    reconfig ⟨1000, 1, 10, 3, 4, 0, false, false, false, 0⟩ =
      ConfigResult.ok ⟨1000, 1, 10, 0, 100, 0, false, false, false, 0⟩ :=
  ⟨by decide, by decide,
    (reconfig_psc_zero ⟨1000, 1, 10, 3, 4, 0, false, false, false, 0⟩
      (by decide) (by decide)).trans (by decide)⟩

/-- Claim C10, counterexample: at pclk = 100, ppre = 1 a requested
frequency of 200 gives total_ticks = 0; config stores the timeout and
writes psc = 65535, but it then panics (psc + 1 wraps to zero in u16
arithmetic and the reload division divides by zero) instead of writing
arr = 0 and returning normally: the arr register keeps its old value 6. -/
theorem config_zero_ticks_cex :
    totalTicks ⟨100, 1, 0, 5, 6, 0, false, false, false, 0⟩ 200 = 0 ∧
    config ⟨100, 1, 0, 5, 6, 0, false, false, false, 0⟩ 200 =
      ConfigResult.panicked ⟨100, 1, 200, 65535, 6, 0, false, false, false, 0⟩ := by
  decide

/-- Claim C10, amended: for every positive requested frequency with
total_ticks = 0 (frequency above the effective tick rate), config stores
the frequency as timeout and writes psc = 65535, and then panics on a
division by zero before any write to the arr register, so it does not
return normally. -/
theorem config_zero_ticks_panics (s : TimerState) (f : Nat)
    (hf : 0 < f) (h0 : totalTicks s f = 0) :
    config s f = ConfigResult.panicked { s with timeout := f, psc := 65535 } := by
  have hfz : f ≠ 0 := by omega
  have h0x : totalTicks { s with timeout := f } f = 0 := h0
  unfold config
  rw [if_neg hfz]
  simp only [h0x]
  norm_num [wrapSub1, U32, U16]

/-- Claim C10, witness: the amended theorem applied at pclk = 100,
ppre = 1, frequency 300. -/
theorem config_zero_ticks_panics_witness :
    0 < 300 ∧
    totalTicks ⟨100, 1, 0, 5, 6, 0, false, false, false, 0⟩ 300 = 0 ∧
    config ⟨100, 1, 0, 5, 6, 0, false, false, false, 0⟩ 300 =
      ConfigResult.panicked ⟨100, 1, 300, 65535, 6, 0, false, false, false, 0⟩ :=
  ⟨by decide, by decide,
    (config_zero_ticks_panics ⟨100, 1, 0, 5, 6, 0, false, false, false, 0⟩ 300
      (by decide) (by decide)).trans (by decide)⟩

end Stm32Timer
